import Mathlib

/-
Verification development for the smart-menu restaurant system.

Shallow embedding of the order-lifecycle and realtime-synchronization logic
found in the POS role screens (staff orders page, kitchen display page,
POS login page), the customer menu page (cart, validation, order
submission), and the order-status page.  Monetary amounts and coordinates
are modelled as rationals (the JavaScript sources hold parsed numbers),
timestamps as naturals (milliseconds / abstract ticks), ids as naturals or
strings as in the source rows.
-/

namespace SmartMenu

/-- Order lifecycle status, from the `Order` interface of the POS pages. -/
inductive OrderStatus
  | pending
  | confirmed
  | preparing
  | ready
  | completed
  | cancelled
deriving DecidableEq, Repr

/-- The test `['completed', 'cancelled'].includes(status)` used by the POS
pages to recognize terminal orders. -/
def OrderStatus.isTerminal : OrderStatus → Bool
  | .completed => true
  | .cancelled => true
  | _ => false

/-- Service type of an order, from the `Order` interface. -/
inductive ServiceType
  | dine_in
  | pickup
  | delivery
deriving DecidableEq, Repr

/-- Projection of an order row as carried by a realtime payload.  The row
has further fields (items, prices, ...) that no event handler inspects;
`updated_at` is present on the database row (see the order-status page's
`Order` interface) although the POS pages' local `Order` interface omits it
and their handlers never read it. -/
structure Order where
  id : Nat
  status : OrderStatus
  updated_at : Nat
deriving DecidableEq, Repr

/-- A postgres_changes payload delivered on an orders channel:
`eventType` INSERT/UPDATE carry `payload.new`, DELETE carries
`payload.old.id`. -/
inductive ChangeEvent
  | insert (new : Order)
  | update (new : Order)
  | delete (oldId : Nat)
deriving DecidableEq, Repr

/-- The orders-channel callback of the staff orders page
(`ordersChannel`, src/webapp/app/pos/orders/page.tsx lines 348-368),
restricted to its effect on the `orders` state:
INSERT prepends `payload.new`; UPDATE removes the order when the incoming
status is terminal and otherwise replaces every entry with a matching id;
DELETE removes by `payload.old.id`.  No timestamp is consulted. -/
def staffApplyOrderEvent (prev : List Order) : ChangeEvent → List Order
  | .insert n => n :: prev
  | .update n =>
      if n.status.isTerminal then
        prev.filter (fun o => o.id != n.id)
      else
        prev.map (fun o => if o.id = n.id then n else o)
  | .delete oldId => prev.filter (fun o => o.id != oldId)

/-- The orders-channel callback of the kitchen display page
(src/webapp/app/pos/login/page.tsx lines 710-727): INSERT prepends;
UPDATE replaces matching ids and then filters out terminal statuses;
DELETE removes by id.  No timestamp is consulted. -/
def kitchenApplyOrderEvent (prev : List Order) : ChangeEvent → List Order
  | .insert n => n :: prev
  | .update n =>
      (prev.map (fun o => if o.id = n.id then n else o)).filter
        (fun o => !o.status.isTerminal)
  | .delete oldId => prev.filter (fun o => o.id != oldId)

/-- Both orders-channel callbacks invoke `playNotification` exactly when
the incoming event is an INSERT (staff page line 352, kitchen page
line 715); UPDATE and DELETE never alert. -/
def orderAlertFires : ChangeEvent → Bool
  | .insert _ => true
  | _ => false

/-- Number of times the new-order alert pattern fires over a sequence of
delivered events. -/
def orderAlertCount (events : List ChangeEvent) : Nat :=
  (events.filter orderAlertFires).length

/-- After `updateOrderStatus` gets `response.ok`, both POS pages drop the
order from the local list exactly when the requested status is terminal
(staff page lines 424-428, kitchen page lines 745-750). -/
def afterLocalStatusUpdate (prev : List Order) (orderId : Nat)
    (newStatus : OrderStatus) : List Order :=
  if newStatus.isTerminal then prev.filter (fun o => o.id != orderId) else prev

/-- Modelled from the spec: the storage collaborator's fetch-by-id used by
the order-status page (`fetchOrder`, GET `/api/orders/{order_id}`).  The
backend endpoint is not under src/; the spec says a terminal order
"remains queryable by id", and the order-status page requests the order by
id with no status restriction and renders completed/cancelled results. -/
def fetchOrderById (store : List Order) (orderId : Nat) : Option Order :=
  store.find? (fun o => o.id == orderId)

/-- The forward edges of the order lifecycle graph
(pending → confirmed → preparing → ready → completed), used to state the
claims about one-step transitions. -/
def forwardStep : OrderStatus → Option OrderStatus
  | .pending => some .confirmed
  | .confirmed => some .preparing
  | .preparing => some .ready
  | .ready => some .completed
  | .completed => none
  | .cancelled => none

/-- The status targets requested by the kitchen display's action buttons
(src/webapp/app/pos/login/page.tsx lines 1017-1052): a `pending` card
offers Confirm (`confirmed`), a `confirmed` card offers Start Cooking
(`preparing`), a `preparing` card offers Mark Ready (`ready`), a `ready`
card offers Served (`completed`); terminal cards offer nothing. -/
def kitchenActionTargets : OrderStatus → List OrderStatus
  | .pending => [.confirmed]
  | .confirmed => [.preparing]
  | .preparing => [.ready]
  | .ready => [.completed]
  | .completed => []
  | .cancelled => []

/-- The status targets requested by the staff orders page's action buttons
(src/webapp/app/pos/orders/page.tsx lines 687-705): a `ready` card offers
Served (`completed`); any card whose status is neither `ready` nor
`completed` offers Complete (`completed`). -/
def staffActionTargets (s : OrderStatus) : List OrderStatus :=
  (if s = .ready then [OrderStatus.completed] else []) ++
  (if s ≠ .ready ∧ s ≠ .completed then [OrderStatus.completed] else [])

/-- A meat / add-on option of a menu item: `{name, nameEn?, price}`.
Prices are held as strings in the source and parsed with `parseFloat`
before use; they are modelled here by their parsed rational value, with
the source's `'0'` / `'free'` sentinel strings both denoted by 0. -/
structure MenuOptionPrice where
  name : String
  nameEn : Option String
  price : ℚ
deriving DecidableEq, Repr

/-- The fields of the customer page's `MenuItem` interface that the cart
operations read. -/
structure MenuItem where
  menu_id : String
  name : String
  nameEn : Option String
  price : ℚ
  meats : List MenuOptionPrice
  addOns : List MenuOptionPrice
deriving DecidableEq, Repr

/-- The display name `m.nameEn || m.name` used to match a selected option
(empty or absent `nameEn` falls back to `name`, per JavaScript
truthiness). -/
def optionDisplayName (m : MenuOptionPrice) : String :=
  match m.nameEn with
  | some en => if en.isEmpty then m.name else en
  | none => m.name

/-- The customer page's `CartItem` interface.  `quantity` is an integer
(the source clamps it at 1 via `Math.max`). -/
structure CartItem where
  menu_id : String
  name : String
  nameEn : Option String
  price : ℚ
  quantity : ℤ
  selectedMeat : Option String
  selectedAddOns : List String
  notes : Option String
deriving DecidableEq, Repr

/-- `addToCart` (src/unnamed/part_002 lines 640-681): computes the line's
unit price from the base price plus the selected meat's surcharge (when
the matched meat's price is not the `'0'`/`'free'` sentinel) plus the
price of each selected add-on, resolves the original-language name from
`originalMenus`, and appends a fresh line with quantity 1 —
`setCart([...cart, cartItem])` — never merging with an existing line. -/
def addToCart (originalMenus : List MenuItem) (cart : List CartItem)
    (menu : MenuItem) (selectedMeat : Option String)
    (selectedAddOns : List String) (notes : Option String) : List CartItem :=
  let basePrice := menu.price
  let withMeat :=
    match selectedMeat with
    | some sm =>
        match menu.meats.find? (fun m => optionDisplayName m == sm) with
        | some meat => if meat.price ≠ 0 then basePrice + meat.price else basePrice
        | none => basePrice
    | none => basePrice
  let totalPrice := selectedAddOns.foldl
    (fun acc addOnName =>
      match menu.addOns.find? (fun a => optionDisplayName a == addOnName) with
      | some a => acc + a.price
      | none => acc)
    withMeat
  let originalName :=
    match originalMenus.find? (fun m => m.menu_id == menu.menu_id) with
    | some om => om.name
    | none => menu.name
  let originalNameEn :=
    match originalMenus.find? (fun m => m.menu_id == menu.menu_id) with
    | some om => om.nameEn
    | none => menu.nameEn
  cart ++ [{ menu_id := menu.menu_id
             name := originalName
             nameEn := originalNameEn
             price := totalPrice
             quantity := 1
             selectedMeat := selectedMeat
             selectedAddOns := selectedAddOns
             notes := notes }]

/-- `updateQuantity` (src/unnamed/part_002 lines 683-689): maps over the
whole cart and, on every line whose `menu_id` matches, sets
`quantity := Math.max(1, quantity + delta)`. -/
def updateQuantity (cart : List CartItem) (menuId : String) (delta : ℤ) :
    List CartItem :=
  cart.map (fun item =>
    if item.menu_id = menuId then
      { item with quantity := max 1 (item.quantity + delta) }
    else item)

/-- `removeFromCart` (src/unnamed/part_002 lines 691-693): filters out
every line whose `menu_id` matches. -/
def removeFromCart (cart : List CartItem) (menuId : String) : List CartItem :=
  cart.filter (fun item => item.menu_id != menuId)

/-- `getSubtotal` (src/unnamed/part_002 lines 695-697):
`cart.reduce((sum, item) => sum + item.price * item.quantity, 0)`. -/
def getSubtotal (cart : List CartItem) : ℚ :=
  cart.foldl (fun sum item => sum + item.price * (item.quantity : ℚ)) 0

/-- `getDeliveryFee` (src/unnamed/part_002 lines 699-701): the selected
delivery fee when the service type is delivery, otherwise 0. -/
def getDeliveryFee (serviceType : ServiceType) (selectedDeliveryFee : ℚ) : ℚ :=
  if serviceType = .delivery then selectedDeliveryFee else 0

/-- `getTotalPrice` (src/unnamed/part_002 lines 703-705):
`getSubtotal() + getDeliveryFee()`. -/
def getTotalPrice (cart : List CartItem) (serviceType : ServiceType)
    (selectedDeliveryFee : ℚ) : ℚ :=
  getSubtotal cart + getDeliveryFee serviceType selectedDeliveryFee

/-- Translation of the JavaScript blank test `!s.trim()` used by
`handlePlaceOrder`: the trimmed string is empty exactly when every
character of the string is whitespace.  (`String.trim` itself has an
opaque native implementation, so the test is embedded over the character
list.) -/
def isBlank (s : String) : Bool :=
  s.toList.all Char.isWhitespace

/-- The `customerDetails` state of the customer menu page. -/
structure CustomerDetails where
  table_no : String
  name : String
  phone : String
  pickup_time : String
  address : String
deriving DecidableEq, Repr

/-- A delivery rate tier `{id, distance_km, price}` from restaurant
settings. -/
structure DeliveryRate where
  id : String
  distance_km : ℚ
  price : ℚ
deriving DecidableEq, Repr

/-- The `deliveryCalculation` state of the customer menu page
(src/unnamed/part_002 lines 81-92 and 287-357).  The success branch of
`calculateDeliveryFee` stores `success := true` together with the fee and
`is_within_range` from the API; the failure branch stores only
`success := false` and an error, leaving `is_within_range` absent, which
every JavaScript condition in the page reads as false — modelled here as
the field holding `false`. -/
structure DeliveryCalculation where
  success : Bool
  delivery_fee : Option ℚ
  is_within_range : Bool
deriving DecidableEq, Repr

/-- The success branch of `calculateDeliveryFee` (src/unnamed/part_002
lines 325-341). -/
def deliveryCalcSuccess (fee : Option ℚ) (withinRange : Bool) :
    DeliveryCalculation :=
  { success := true, delivery_fee := fee, is_within_range := withinRange }

/-- The failure branch of `calculateDeliveryFee` (src/unnamed/part_002
lines 342-353): only `success: false` and an error message are stored. -/
def deliveryCalcFailure : DeliveryCalculation :=
  { success := false, delivery_fee := none, is_within_range := false }

/-- JavaScript truthiness of `restaurantLocation.latitude` /
`.longitude`: the state starts as `null` and is set from the API; `null`
and `0` are both falsy. -/
def coordTruthy : Option ℚ → Bool
  | none => false
  | some v => v != 0

/-- The order-creation payload POSTed to `/api/orders` by
`handlePlaceOrder` (src/unnamed/part_002 lines 783-798), restricted to
the fields the claims are about. -/
structure OrderPayload where
  service_type : ServiceType
  items : List CartItem
  table_no : Option String
  customer_name : Option String
  customer_phone : Option String
  tax : ℚ
  delivery_fee : ℚ
  subtotal : ℚ
deriving DecidableEq, Repr

/-- Outcome of an order-submission attempt: either an early return with
the `alert` message shown (no request is sent), or the POSTed payload. -/
inductive PlaceOrderResult
  | rejected (message : String)
  | submitted (payload : OrderPayload)
deriving DecidableEq, Repr

/-- Whether an attempt reached the POST. -/
def PlaceOrderResult.isSubmitted : PlaceOrderResult → Bool
  | .submitted _ => true
  | .rejected _ => false

/-- The payload built once validation passes (src/unnamed/part_002 lines
749-798): `tax: 0`, `delivery_fee: serviceType === 'delivery' ?
getDeliveryFee() : 0`, `subtotal: getSubtotal()`, service-type-conditional
customer fields. -/
def orderPayloadOf (serviceType : ServiceType) (d : CustomerDetails)
    (cart : List CartItem) (selectedDeliveryFee : ℚ) : OrderPayload :=
  { service_type := serviceType
    items := cart
    table_no := if serviceType = .dine_in then some d.table_no else none
    customer_name := if serviceType ≠ .dine_in then some d.name else none
    customer_phone := if serviceType ≠ .dine_in then some d.phone else none
    tax := 0
    delivery_fee :=
      if serviceType = .delivery then getDeliveryFee serviceType selectedDeliveryFee
      else 0
    subtotal := getSubtotal cart }

/-- `handlePlaceOrder` (src/unnamed/part_002 lines 707-825): the sequence
of early-return validations — dine_in requires a non-blank `table_no`;
pickup requires non-blank `name` and `phone`; delivery requires non-blank
`name`, `phone` and `address`, and, when the restaurant location is set
(truthy latitude and longitude) and rate tiers exist, a stored delivery
calculation whose `is_within_range` is true — followed by the POST of the
order payload. -/
def handlePlaceOrder (serviceType : ServiceType) (d : CustomerDetails)
    (restLat restLng : Option ℚ) (deliveryRates : List DeliveryRate)
    (dcalc : Option DeliveryCalculation) (cart : List CartItem)
    (selectedDeliveryFee : ℚ) : PlaceOrderResult :=
  if serviceType = .dine_in ∧ isBlank d.table_no = true then
    .rejected ("Please enter table number")
  else if serviceType = .pickup ∧ isBlank d.name = true then
    .rejected ("Please enter your name")
  else if serviceType = .pickup ∧ isBlank d.phone = true then
    .rejected ("Please enter your phone number")
  else if serviceType = .delivery ∧ isBlank d.name = true then
    .rejected ("Please enter your name")
  else if serviceType = .delivery ∧ isBlank d.phone = true then
    .rejected ("Please enter your phone number")
  else if serviceType = .delivery ∧ isBlank d.address = true then
    .rejected ("Please enter delivery address")
  else if serviceType = .delivery ∧ coordTruthy restLat = true
      ∧ coordTruthy restLng = true ∧ 0 < deliveryRates.length then
    match dcalc with
    | none =>
        .rejected ("Please click \"Calculate Delivery Fee\" to check if we can deliver to your address")
    | some c =>
        if c.is_within_range = false then
          .rejected ("Sorry, your address is outside our delivery range")
        else
          .submitted (orderPayloadOf serviceType d cart selectedDeliveryFee)
  else
    .submitted (orderPayloadOf serviceType d cart selectedDeliveryFee)

/-- The validation rule in the specification's words, for comparison with
`handlePlaceOrder`: dine_in requires a non-empty table number; pickup
requires non-empty customer name and phone; delivery requires name, phone
and address, and — when the restaurant has a geocoordinate and rate
tiers — a delivery-fee calculation with `is_within_range` true. -/
def specValidationOk (serviceType : ServiceType) (d : CustomerDetails)
    (restLat restLng : Option ℚ) (deliveryRates : List DeliveryRate)
    (dcalc : Option DeliveryCalculation) : Bool :=
  match serviceType with
  | .dine_in => !(isBlank d.table_no)
  | .pickup => !(isBlank d.name) && !(isBlank d.phone)
  | .delivery =>
      !(isBlank d.name) && !(isBlank d.phone) && !(isBlank d.address) &&
      (if coordTruthy restLat && coordTruthy restLng && decide (0 < deliveryRates.length) then
        match dcalc with
        | some c => c.is_within_range
        | none => false
      else true)

/-- Modelled from the spec: the storage collaborator's `createOrder`
computes `total_price = subtotal + delivery_fee + tax` at creation.  The
backend that persists the order row is not under src/; the client computes
and displays `getTotalPrice() = getSubtotal() + getDeliveryFee()` and
POSTs `tax: 0` alongside subtotal and delivery fee. -/
def createOrderTotalPrice (p : OrderPayload) : ℚ :=
  p.subtotal + p.delivery_fee + p.tax

/-- The `pos_session` record written by `handlePinSubmit`
(src/webapp/app/pos/login/page.tsx lines 108-138), restricted to the
fields the claims are about. -/
structure POSSession where
  staffId : String
  role : String
  restaurantId : String
  expires : Nat
deriving DecidableEq, Repr

/-- `expires: Date.now() + (8 * 60 * 60 * 1000)` set at login
(src/webapp/app/pos/login/page.tsx line 118). -/
def loginSessionExpires (now : Nat) : Nat :=
  now + 8 * 60 * 60 * 1000

/-- Outcome of the session check both role pages run when they mount. -/
inductive MountOutcome
  | redirectLogin
  | active (s : POSSession)
deriving DecidableEq, Repr

/-- The mount-time session check of the staff orders page (lines 83-105)
and the kitchen display page (lines 438-460): a missing stored session
redirects to `/pos/login`; a stored session with `expires < Date.now()` is
removed and redirects to `/pos/login`; otherwise the session becomes
active.  This is the only place expiry is consulted. -/
def mountSessionCheck (stored : Option POSSession) (now : Nat) : MountOutcome :=
  match stored with
  | none => .redirectLogin
  | some s => if s.expires < now then .redirectLogin else .active s

/-- The realtime subscriptions are established only once the mount check
has produced an active session (`if (!session?.restaurantId) return`). -/
def subscriptionActive (stored : Option POSSession) (mountNow : Nat) : Bool :=
  match mountSessionCheck stored mountNow with
  | .redirectLogin => false
  | .active _ => true

/-- The staff view after a ChangeEvent arriving at wall-clock time
`eventNow`: the event is applied iff the mount-time check succeeded; the
channel callback never re-reads the clock or the session expiry, so
`eventNow` plays no role. -/
def viewAfterEventAt (stored : Option POSSession) (mountNow eventNow : Nat)
    (view : List Order) (e : ChangeEvent) : List Order :=
  if subscriptionActive stored mountNow then staffApplyOrderEvent view e else view

/-- Service request lifecycle status, from the `ServiceRequest`
interface. -/
inductive RequestStatus
  | pending
  | acknowledged
  | completed
deriving DecidableEq, Repr

/-- The set of columns written by the staff page's `updateRequestStatus`
(src/webapp/app/pos/orders/page.tsx lines 435-454).  Fields assigned
`undefined` in the source are omitted from the UPDATE; they are modelled
as `none`.  No other column is written. -/
structure RequestUpdateFields where
  status : RequestStatus
  acknowledged_by : Option String
  acknowledged_at : Option Nat
  completed_at : Option Nat
  updated_at : Nat
deriving DecidableEq, Repr

/-- `updateRequestStatus`'s update object: `acknowledged_by` and
`acknowledged_at` are set only when the new status is `acknowledged`
(`session?.staffId` may itself be absent), `completed_at` only when it is
`completed`, and `updated_at` always. -/
def updateRequestStatusFields (staffId : Option String) (now : Nat)
    (newStatus : RequestStatus) : RequestUpdateFields :=
  { status := newStatus
    acknowledged_by := if newStatus = .acknowledged then staffId else none
    acknowledged_at := if newStatus = .acknowledged then some now else none
    completed_at := if newStatus = .completed then some now else none
    updated_at := now }

/-- Claim C1: the claim says an update event is applied only if its
payload's `updated_at` is not older than the locally held copy's, so that
applying (T2, then T1) leaves the view in the T2 state.  Evaluating the
staff orders-channel callback at the failing input: the view holds order 1
(pending, updated_at 0); the T2 update (confirmed, updated_at 2) arrives
first, then the stale T1 update (pending, updated_at 1).  The local view
ends in the T1 state, not the T2 state: the handler applies whatever
arrives last, with no timestamp guard. -/
theorem staleUpdateOverwritesNewer :
    staffApplyOrderEvent
      (staffApplyOrderEvent [⟨1, .pending, 0⟩] (.update ⟨1, .confirmed, 2⟩))
      (.update ⟨1, .pending, 1⟩)
      = [⟨1, .pending, 1⟩]
    ∧ ([⟨1, .pending, 1⟩] : List Order) ≠ [⟨1, .confirmed, 2⟩] := by
  exact ⟨rfl, by decide⟩

/-- Claim C2: the claim says applying the same ChangeEvent twice yields
the same view as applying it once, and that an insert for a present id is
treated as an update.  Evaluating the staff orders-channel callback at the
failing input: applying the same insert event twice to the empty view
produces two copies of the order, not one. -/
theorem duplicateInsertDuplicatesEntry :
    staffApplyOrderEvent
      (staffApplyOrderEvent [] (.insert ⟨1, .pending, 0⟩))
      (.insert ⟨1, .pending, 0⟩)
      = [⟨1, .pending, 0⟩, ⟨1, .pending, 0⟩]
    ∧ staffApplyOrderEvent [] (.insert ⟨1, .pending, 0⟩) = [⟨1, .pending, 0⟩]
    ∧ ([⟨1, .pending, 0⟩, ⟨1, .pending, 0⟩] : List Order) ≠ [⟨1, .pending, 0⟩] := by
  exact ⟨rfl, rfl, by decide⟩

/-- Claim C3: the claim says the new-order alert fires exactly once when
two duplicate insert events for the same new order id arrive.  Evaluating
the alert rule of the orders-channel callbacks at the failing input: two
duplicate INSERT deliveries fire the alert twice, because
`playNotification` runs unconditionally on every received INSERT. -/
theorem duplicateInsertAlertsTwice :
    orderAlertCount [.insert ⟨1, .pending, 0⟩, .insert ⟨1, .pending, 0⟩] = 2
    ∧ orderAlertCount [ChangeEvent.insert ⟨1, .pending, 0⟩] = 1 := by
  exact ⟨rfl, rfl⟩

/-- Claim C4 counterexample: the staff action surface, rendered for an
order whose status is `pending`, requests `completed` directly — a jump
that skips `confirmed`, `preparing` and `ready` — so role action surfaces
do not advance by exactly one forward step. -/
theorem staffSurfaceJumpsPendingToCompleted :
    staffActionTargets .pending = [.completed]
    ∧ forwardStep .pending ≠ some .completed := by
  exact ⟨rfl, by decide⟩

/-- Claim C4, amended: every target requested by the kitchen display's
buttons is the unique one-step forward successor of the card's status,
while the staff orders page's buttons only ever request `completed`,
offering it from every status other than `completed` — including directly
from `pending`, `confirmed` and `preparing`. -/
theorem roleActionTargets :
    (∀ s : OrderStatus, ∀ t ∈ kitchenActionTargets s, forwardStep s = some t)
    ∧ (∀ s : OrderStatus, ∀ t ∈ staffActionTargets s, t = .completed)
    ∧ (∀ s : OrderStatus, s ≠ .completed → OrderStatus.completed ∈ staffActionTargets s) := by
  refine ⟨?_, ?_, ?_⟩ <;> intro s <;> cases s <;> decide

/-- Witness for roleActionTargets at concrete inputs. -/
theorem roleActionTargets_witness :
    forwardStep .preparing = some .ready
    ∧ (OrderStatus.completed = OrderStatus.completed)
    ∧ OrderStatus.completed ∈ staffActionTargets .pending := by
  have h := roleActionTargets
  exact ⟨h.1 .preparing .ready (by decide),
         h.2.1 .ready .completed (by decide),
         h.2.2 .pending (by decide)⟩

/-- Claim C5: an update event carrying a terminal status removes the order
from the staff and kitchen active-orders views, a successful local
transition to a terminal status does the same, and the order remains
fetchable by its id from the store. -/
theorem terminalOrderRemovedButFetchable
    (view store : List Order) (o : Order)
    (hterm : o.status.isTerminal = true) (hstore : o ∈ store) :
    (staffApplyOrderEvent view (.update o)).all (fun x => x.id != o.id) = true
    ∧ (kitchenApplyOrderEvent view (.update o)).all (fun x => x.id != o.id) = true
    ∧ (afterLocalStatusUpdate view o.id o.status).all (fun x => x.id != o.id) = true
    ∧ (fetchOrderById store o.id).isSome = true := by
  refine ⟨?_, ?_, ?_, ?_⟩
  · simp only [staffApplyOrderEvent, hterm, if_pos, List.all_eq_true,
      List.mem_filter]
    intro x hx
    exact hx.2
  · simp only [kitchenApplyOrderEvent, List.all_eq_true, List.mem_filter,
      List.mem_map]
    rintro x ⟨⟨y, _, hy⟩, hterm2⟩
    by_cases hid : y.id = o.id
    · rw [if_pos hid] at hy
      subst hy
      rw [hterm] at hterm2
      simp at hterm2
    · rw [if_neg hid] at hy
      subst hy
      simpa using hid
  · simp only [afterLocalStatusUpdate, hterm, if_pos, List.all_eq_true,
      List.mem_filter]
    intro x hx
    exact hx.2
  · rw [fetchOrderById, List.find?_isSome]
    exact ⟨o, hstore, by simp⟩

/-- Witness for terminalOrderRemovedButFetchable: order 1 completes while
order 2 is also on the view; the completed order leaves both role views
and the local post-transition view, yet is still found by id in the
store. -/
theorem terminalOrderRemovedButFetchable_witness :
    (staffApplyOrderEvent [⟨1, .ready, 3⟩, ⟨2, .pending, 1⟩]
        (.update ⟨1, .completed, 7⟩)).all (fun x => x.id != (1 : Nat)) = true
    ∧ (kitchenApplyOrderEvent [⟨1, .ready, 3⟩, ⟨2, .pending, 1⟩]
        (.update ⟨1, .completed, 7⟩)).all (fun x => x.id != (1 : Nat)) = true
    ∧ (afterLocalStatusUpdate [⟨1, .ready, 3⟩, ⟨2, .pending, 1⟩] 1
        OrderStatus.completed).all (fun x => x.id != (1 : Nat)) = true
    ∧ (fetchOrderById [⟨1, .completed, 7⟩, ⟨2, .pending, 1⟩] 1).isSome = true := by
  exact terminalOrderRemovedButFetchable
    [⟨1, .ready, 3⟩, ⟨2, .pending, 1⟩]
    [⟨1, .completed, 7⟩, ⟨2, .pending, 1⟩]
    ⟨1, .completed, 7⟩ (by decide) (by decide)

/-- Folding `reduce((sum, item) => sum + f(item), a)` equals `a` plus the
sum of the mapped values. -/
theorem foldl_add_map_sum (f : CartItem → ℚ) (a : ℚ) (l : List CartItem) :
    l.foldl (fun s i => s + f i) a = a + (l.map f).sum := by
  induction l generalizing a with
  | nil => simp
  | cons hd tl ih => simp [ih, add_assoc]

/-- Claim C6: order submission validates service-type-conditional fields
before any order is created: the attempt reaches the POST exactly when the
specification's validation rule holds (dine_in needs a table number,
pickup needs name and phone, delivery needs name, phone, address and —
when the restaurant has a truthy geocoordinate and rate tiers — a stored
delivery calculation with `is_within_range` true); each violation is
rejected with the message naming the missing field or the out-of-range
condition and no order is sent. -/
theorem placeOrderValidation :
    (∀ (st : ServiceType) (d : CustomerDetails) (la ln : Option ℚ)
       (rates : List DeliveryRate) (dcalc : Option DeliveryCalculation)
       (cart : List CartItem) (fee : ℚ),
      (handlePlaceOrder st d la ln rates dcalc cart fee).isSubmitted
        = specValidationOk st d la ln rates dcalc)
    ∧ handlePlaceOrder .dine_in ⟨"", "a", "b", "", ""⟩ none none [] none [] 0
        = .rejected ("Please enter table number")
    ∧ handlePlaceOrder .pickup ⟨"", "", "b", "", ""⟩ none none [] none [] 0
        = .rejected ("Please enter your name")
    ∧ handlePlaceOrder .pickup ⟨"", "a", "", "", ""⟩ none none [] none [] 0
        = .rejected ("Please enter your phone number")
    ∧ handlePlaceOrder .delivery ⟨"", "a", "b", "", ""⟩ none none [] none [] 0
        = .rejected ("Please enter delivery address")
    ∧ handlePlaceOrder .delivery ⟨"", "a", "b", "", "12 Queen St"⟩
        (some 1) (some 2) [⟨"r1", 5, 10⟩] none [] 0
        = .rejected ("Please click \"Calculate Delivery Fee\" to check if we can deliver to your address")
    ∧ handlePlaceOrder .delivery ⟨"", "a", "b", "", "12 Queen St"⟩
        (some 1) (some 2) [⟨"r1", 5, 10⟩]
        (some (deliveryCalcSuccess none false)) [] 0
        = .rejected ("Sorry, your address is outside our delivery range")
    ∧ (∀ (fee : Option ℚ) (wr : Bool),
        (deliveryCalcSuccess fee wr).success = true
        ∧ (deliveryCalcSuccess fee wr).is_within_range = wr)
    ∧ deliveryCalcFailure.is_within_range = false := by
  refine ⟨?_, rfl, rfl, rfl, rfl, rfl, rfl, fun fee wr => ⟨rfl, rfl⟩, rfl⟩
  intro st d la ln rates dcalc cart fee
  cases st with
  | dine_in =>
      cases h : isBlank d.table_no <;>
        simp [handlePlaceOrder, specValidationOk, PlaceOrderResult.isSubmitted, h]
  | pickup =>
      cases hn : isBlank d.name <;>
      cases hp : isBlank d.phone <;>
        simp [handlePlaceOrder, specValidationOk, PlaceOrderResult.isSubmitted, hn, hp]
  | delivery =>
      cases hn : isBlank d.name <;>
      cases hp : isBlank d.phone <;>
      cases ha : isBlank d.address <;>
        simp only [handlePlaceOrder, specValidationOk,
          PlaceOrderResult.isSubmitted, hn, hp, ha] <;>
        simp_all <;>
      by_cases hla : coordTruthy la = true <;>
      by_cases hln : coordTruthy ln = true <;>
      by_cases hr : 0 < rates.length <;>
        simp [hla, hln, hr] <;>
      cases dcalc with
      | none => simp
      | some c =>
          cases hw : c.is_within_range <;>
            simp [hw, PlaceOrderResult.isSubmitted]

/-- Claim C7: at creation `total_price = subtotal + delivery_fee + tax`,
where the POSTed subtotal is the sum over cart lines of unit price times
quantity, the delivery fee is zero unless the service type is delivery,
and tax is zero; a dine_in order with two items totaling 20.00 has total
price 20.00. -/
theorem totalPriceAtCreation :
    (∀ (st : ServiceType) (d : CustomerDetails) (cart : List CartItem) (fee : ℚ),
      createOrderTotalPrice (orderPayloadOf st d cart fee)
          = (orderPayloadOf st d cart fee).subtotal
            + (orderPayloadOf st d cart fee).delivery_fee
            + (orderPayloadOf st d cart fee).tax
      ∧ (orderPayloadOf st d cart fee).subtotal = getSubtotal cart
      ∧ (orderPayloadOf st d cart fee).tax = 0
      ∧ (orderPayloadOf st d cart fee).delivery_fee
          = (if st = .delivery then fee else 0))
    ∧ (∀ cart : List CartItem,
        getSubtotal cart
          = (cart.map (fun i => i.price * (i.quantity : ℚ))).sum)
    ∧ getTotalPrice
        [⟨"m1", "Pad Thai", none, (25 : ℚ)/2, 1, none, [], none⟩,
         ⟨"m2", "Green Curry", none, (15 : ℚ)/2, 1, none, [], none⟩]
        .dine_in 99 = 20
    ∧ createOrderTotalPrice
        (orderPayloadOf .dine_in ⟨"5", "", "", "", ""⟩
          [⟨"m1", "Pad Thai", none, (25 : ℚ)/2, 1, none, [], none⟩,
           ⟨"m2", "Green Curry", none, (15 : ℚ)/2, 1, none, [], none⟩] 99)
        = 20 := by
  refine ⟨?_, ?_, ?_, ?_⟩
  · intro st d cart fee
    refine ⟨rfl, rfl, rfl, ?_⟩
    by_cases h : st = .delivery <;> simp [orderPayloadOf, getDeliveryFee, h]
  · intro cart
    simpa [getSubtotal] using
      foldl_add_map_sum (fun i => i.price * (i.quantity : ℚ)) 0 cart
  · norm_num [getTotalPrice, getSubtotal, getDeliveryFee] <;> decide
  · norm_num [createOrderTotalPrice, orderPayloadOf, getSubtotal] <;> decide

/-- Claim C8 counterexample: completing a service request writes
`completed_at` and `updated_at`, but no actor identity — `acknowledged_by`,
the only identity column `updateRequestStatus` ever writes, is left unset
on the `completed` transition. -/
theorem completedStampsNoActorIdentity :
    (updateRequestStatusFields (some ("staff-1")) 5 .completed).acknowledged_by
        = none
    ∧ (updateRequestStatusFields (some ("staff-1")) 5 .completed).completed_at
        = some 5 := by
  exact ⟨rfl, rfl⟩

/-- Claim C8, amended: the `acknowledged` transition stamps the session's
staff id into `acknowledged_by` and the current time into
`acknowledged_at`; the `completed` transition stamps `completed_at` and
`updated_at` but records no actor identity. -/
theorem requestTransitionStamps :
    ∀ (sid : Option String) (now : Nat),
      (updateRequestStatusFields sid now .acknowledged).acknowledged_by = sid
      ∧ (updateRequestStatusFields sid now .acknowledged).acknowledged_at = some now
      ∧ (updateRequestStatusFields sid now .acknowledged).completed_at = none
      ∧ (updateRequestStatusFields sid now .completed).completed_at = some now
      ∧ (updateRequestStatusFields sid now .completed).acknowledged_by = none
      ∧ (updateRequestStatusFields sid now .completed).acknowledged_at = none
      ∧ (updateRequestStatusFields sid now .completed).updated_at = now := by
  intro sid now
  exact ⟨rfl, rfl, rfl, rfl, rfl, rfl, rfl⟩

/-- Claim C9 counterexample: a session that expired at time 10, read by a
page that mounted at time 5, keeps applying ChangeEvents: an insert
arriving at time 20 — after the expiry has passed — still changes the
local view, because the expiry is never re-checked after mount. -/
theorem eventAppliedAfterExpiryMidSession :
    (POSSession.mk ("s1") ("staff") ("r1") 10).expires < 20
    ∧ viewAfterEventAt (some (POSSession.mk ("s1") ("staff") ("r1") 10)) 5 20 []
        (.insert ⟨1, .pending, 0⟩) = [⟨1, .pending, 0⟩]
    ∧ ([⟨1, .pending, 0⟩] : List Order) ≠ ([] : List Order) := by
  exact ⟨by decide, rfl, by decide⟩

/-- Claim C9, amended: a POS session carries `expires = login time + 8
hours`; the expiry is checked when a role page mounts — a session already
expired at mount is discarded, the client redirects to the login screen
and applies no events — but the check is not repeated afterwards, so
events arriving after the expiry passes mid-session are still applied. -/
theorem sessionExpiryCheckedAtMountOnly :
    (∀ now : Nat, loginSessionExpires now = now + 8 * 60 * 60 * 1000)
    ∧ (∀ (s : POSSession) (mountNow : Nat), s.expires < mountNow →
        mountSessionCheck (some s) mountNow = .redirectLogin
        ∧ ∀ (eventNow : Nat) (view : List Order) (e : ChangeEvent),
            viewAfterEventAt (some s) mountNow eventNow view e = view)
    ∧ (∀ (s : POSSession) (mountNow : Nat), ¬ s.expires < mountNow →
        ∀ (eventNow : Nat) (view : List Order) (e : ChangeEvent),
          viewAfterEventAt (some s) mountNow eventNow view e
            = staffApplyOrderEvent view e) := by
  refine ⟨fun now => rfl, ?_, ?_⟩
  · intro s mountNow h
    refine ⟨by simp [mountSessionCheck, h], ?_⟩
    intro eventNow view e
    simp [viewAfterEventAt, subscriptionActive, mountSessionCheck, h]
  · intro s mountNow h eventNow view e
    simp [viewAfterEventAt, subscriptionActive, mountSessionCheck, h]

/-- Witness for sessionExpiryCheckedAtMountOnly at concrete inputs. -/
theorem sessionExpiryCheckedAtMountOnly_witness :
    loginSessionExpires 0 = 0 + 8 * 60 * 60 * 1000
    ∧ mountSessionCheck (some (POSSession.mk ("s1") ("staff") ("r1") 10)) 11
        = .redirectLogin
    ∧ viewAfterEventAt (some (POSSession.mk ("s1") ("staff") ("r1") 10)) 11 12 []
        (.insert ⟨2, .pending, 0⟩) = []
    ∧ viewAfterEventAt (some (POSSession.mk ("s1") ("staff") ("r1") 10)) 5 20 []
        (.insert ⟨2, .pending, 0⟩)
        = staffApplyOrderEvent [] (.insert ⟨2, .pending, 0⟩) := by
  refine ⟨sessionExpiryCheckedAtMountOnly.1 0, ?_, ?_, ?_⟩
  · exact (sessionExpiryCheckedAtMountOnly.2.1
      (POSSession.mk ("s1") ("staff") ("r1") 10) 11 (by decide)).1
  · exact (sessionExpiryCheckedAtMountOnly.2.1
      (POSSession.mk ("s1") ("staff") ("r1") 10) 11 (by decide)).2 12 []
      (.insert ⟨2, .pending, 0⟩)
  · exact sessionExpiryCheckedAtMountOnly.2.2
      (POSSession.mk ("s1") ("staff") ("r1") 10) 5 (by decide) 20 []
      (.insert ⟨2, .pending, 0⟩)

/-- Claim C10: cart mutations identify lines by `menu_id` alone:
`addToCart` appends a fresh line with quantity 1 at the end of the cart
(never merging with an existing line of the same dish), `updateQuantity`
rewrites the quantity of every line sharing the given `menu_id` and leaves
all other lines unchanged, and `removeFromCart` removes every line sharing
the given `menu_id`; two lines for the same dish with different selected
meats are quantity-changed and removed together. -/
theorem cartMutationByMenuId :
    (∀ (orig : List MenuItem) (cart : List CartItem) (menu : MenuItem)
       (sm : Option String) (sa : List String) (n : Option String),
      (addToCart orig cart menu sm sa n).length = cart.length + 1
      ∧ (addToCart orig cart menu sm sa n).take cart.length = cart
      ∧ ((addToCart orig cart menu sm sa n).getLast?).map CartItem.quantity
          = some 1
      ∧ ((addToCart orig cart menu sm sa n).getLast?).map CartItem.menu_id
          = some menu.menu_id)
    ∧ (∀ (cart : List CartItem) (mid : String) (delta : ℤ),
        (updateQuantity cart mid delta).map CartItem.menu_id
            = cart.map CartItem.menu_id
        ∧ (updateQuantity cart mid delta).map CartItem.quantity
            = cart.map (fun it =>
                if it.menu_id = mid then max 1 (it.quantity + delta)
                else it.quantity))
    ∧ (∀ (cart : List CartItem) (mid : String) (it : CartItem),
        it ∈ removeFromCart cart mid ↔ it ∈ cart ∧ it.menu_id ≠ mid)
    ∧ updateQuantity
        [⟨"m1", "Pad Thai", none, 12, 1, some ("Chicken"), [], none⟩,
         ⟨"m1", "Pad Thai", none, 14, 2, some ("Prawn"), [], none⟩]
        ("m1") 1
        = [⟨"m1", "Pad Thai", none, 12, 2, some ("Chicken"), [], none⟩,
           ⟨"m1", "Pad Thai", none, 14, 3, some ("Prawn"), [], none⟩]
    ∧ removeFromCart
        [⟨"m1", "Pad Thai", none, 12, 1, some ("Chicken"), [], none⟩,
         ⟨"m1", "Pad Thai", none, 14, 2, some ("Prawn"), [], none⟩]
        ("m1")
        = [] := by
  refine ⟨?_, ?_, ?_, by decide, by decide⟩
  · intro orig cart menu sm sa n
    refine ⟨by simp [addToCart], by simp [addToCart, List.take_left],
      by simp [addToCart], by simp [addToCart]⟩
  · intro cart mid delta
    constructor
    · simp only [updateQuantity, List.map_map]
      apply List.map_congr_left
      intro it _
      by_cases h : it.menu_id = mid <;> simp [Function.comp, h]
    · simp only [updateQuantity, List.map_map]
      apply List.map_congr_left
      intro it _
      by_cases h : it.menu_id = mid <;> simp [Function.comp, h]
  · intro cart mid it
    simp [removeFromCart, List.mem_filter, bne_iff_ne]

end SmartMenu
